import Mathlib

/-!
Shallow embedding of the real-time chat client of the SMobile marketplace
frontend: the Zustand chat store (`useChatStore`), the `ChatWindow`
component (active-room effect, history-load effect, WebSocket handlers,
`handleSend`) and the `ChatRoomList` component (rooms fetch and rendering).
Identifiers follow the TypeScript source wherever Lean allows it.
-/

namespace SMobileChat

/-- Role of a user, mirroring `UserRole = "ADMIN" | "SELLER" | "BUYER"`. -/
inductive UserRole
  | admin
  | seller
  | buyer
  deriving DecidableEq, Repr

/-- The `last_message` preview object stored on a `ChatRoom`
(`{ content, sender_id, timestamp }`). -/
structure LastMessage where
  content : String
  sender_id : Nat
  timestamp : String
  deriving DecidableEq, Repr

/-- Mirrors the `ChatParticipant` interface. -/
structure ChatParticipant where
  id : Nat
  name : String
  role : UserRole
  deriving DecidableEq, Repr

/-- Mirrors the `ChatMessage` interface: identity, room identity, sender
fields, content, timestamp and the optional read acknowledgment. -/
structure ChatMessage where
  id : Nat
  room_id : Nat
  sender_id : Nat
  sender_name : String
  sender_role : UserRole
  content : String
  timestamp : String
  read_at : Option String
  deriving DecidableEq, Repr

/-- Mirrors the `ChatRoom` interface of the frontend types. -/
structure ChatRoom where
  id : Nat
  name : String
  order_id : Option Nat
  is_active : Bool
  created_at : String
  participants : List ChatParticipant
  last_message : Option LastMessage
  unread_count : Nat
  deriving DecidableEq, Repr

/-- The state held by `useChatStore`: `rooms`, `activeRoomId`
(`number | null`), `messages` and `isConnected`. -/
structure ChatState where
  rooms : List ChatRoom
  activeRoomId : Option Nat
  messages : List ChatMessage
  isConnected : Bool
  deriving DecidableEq, Repr

/-- The initial store state of `useChatStore`. -/
def initialChatState : ChatState :=
  { rooms := [], activeRoomId := none, messages := [], isConnected := false }

/-- Mirrors `setRooms: (rooms) => set({ rooms })`. -/
def setRooms (s : ChatState) (rooms : List ChatRoom) : ChatState :=
  { s with rooms := rooms }

/-- Mirrors `setActiveRoom: (roomId) => set({ activeRoomId: roomId,
messages: [] })`: the active-room pointer moves and the message log is
cleared in the same state update. -/
def setActiveRoom (s : ChatState) (roomId : Option Nat) : ChatState :=
  { s with activeRoomId := roomId, messages := [] }

/-- Mirrors `setMessages: (messages) => set({ messages })`, the wholesale
replace used after a history load. -/
def setMessages (s : ChatState) (messages : List ChatMessage) : ChatState :=
  { s with messages := messages }

/-- The `last_message` preview built from a message inside `addMessage`. -/
def previewOf (msg : ChatMessage) : LastMessage :=
  { content := msg.content, sender_id := msg.sender_id, timestamp := msg.timestamp }

/-- The per-room function of the `rooms.map` inside `addMessage`: the room
whose `id` equals `msg.room_id` gets its `last_message` overwritten and its
`unread_count` incremented exactly when `msg.room_id !== activeRoomId`;
every other room is returned unchanged. -/
def applyRoomUpdate (activeRoomId : Option Nat) (msg : ChatMessage) (r : ChatRoom) : ChatRoom :=
  if r.id = msg.room_id then
    { r with
      last_message := some (previewOf msg),
      unread_count :=
        if some msg.room_id ≠ activeRoomId then r.unread_count + 1 else r.unread_count }
  else r

/-- Mirrors `addMessage` of `useChatStore`. The source reads
`{ messages, activeRoomId, rooms }` once, then (1) when
`msg.room_id === activeRoomId` and no stored message shares `msg.id`,
sets `messages` to `[...messages, msg]`, and (2) unconditionally maps the
room update over `rooms`. Both `set` calls are merged into one record
update here; the second `set` reads the `rooms` of the initial `get`. -/
def addMessage (s : ChatState) (msg : ChatMessage) : ChatState :=
  let appended :=
    if some msg.room_id = s.activeRoomId then
      if s.messages.any (fun m => m.id == msg.id) then s.messages
      else s.messages ++ [msg]
    else s.messages
  { s with
    messages := appended,
    rooms := s.rooms.map (applyRoomUpdate s.activeRoomId msg) }

/-- Mirrors `setConnected: (val) => set({ isConnected: val })`. -/
def setConnected (s : ChatState) (val : Bool) : ChatState :=
  { s with isConnected := val }

/-- Mirrors `updateUnreadCount: (roomId, count)`, which maps over `rooms`
and sets the matching room's `unread_count` to `count`. Defined in the
store; the repository contains no call site for it. -/
def updateUnreadCount (s : ChatState) (roomId : Nat) (count : Nat) : ChatState :=
  { s with
    rooms := s.rooms.map (fun r =>
      if r.id = roomId then { r with unread_count := count } else r) }

/-- Mirrors `reset`, which restores the initial store state. -/
def resetChatStore (_ : ChatState) : ChatState := initialChatState

/-- The outcome of parsing one inbound WebSocket frame in `ws.onmessage`:
either `JSON.parse(event.data)` throws (`unparseable`) or it yields an
object whose `type` field is `tag` and whose remaining fields are read as a
`ChatMessage` (the source casts with `data as ChatMessage`). -/
inductive InboundFrame
  | unparseable
  | tagged (tag : String) (payload : ChatMessage)
  deriving DecidableEq, Repr

/-- A frame is recognized exactly when it parsed and its tag is
`"message"`, the only tag `ws.onmessage` acts on. -/
def isMessageFrame : InboundFrame → Bool
  | InboundFrame.unparseable => false
  | InboundFrame.tagged tag _ => tag == "message"

/-- Mirrors the body of `ws.onmessage`: the `try` block parses the frame
and calls `addMessage` only when `data.type === "message"`; the `catch`
block ignores malformed frames, so an unparseable frame returns the state
unchanged and no exception escapes. The handler never touches
`isConnected` (only `onopen`, `onclose` and `onerror` do). -/
def onMessageHandler (s : ChatState) (f : InboundFrame) : ChatState :=
  match f with
  | InboundFrame.unparseable => s
  | InboundFrame.tagged tag payload =>
      if tag == "message" then addMessage s payload else s

/-- The `readyState` values of a browser WebSocket; `wsOpen` stands for
`WebSocket.OPEN`. -/
inductive WsReadyState
  | connecting
  | wsOpen
  | closing
  | closed
  deriving DecidableEq, Repr

/-- An outbound frame, mirroring
`JSON.stringify({ room_id: roomId, content })`. -/
structure OutFrame where
  room_id : Nat
  content : String
  deriving DecidableEq, Repr

/-- JavaScript `String.prototype.trim` on the character list of a string:
leading and trailing whitespace removed. -/
def jsTrimList (l : List Char) : List Char :=
  ((l.dropWhile Char.isWhitespace).reverse.dropWhile Char.isWhitespace).reverse

/-- JavaScript `input.trim()` as a function on strings. -/
def jsTrim (s : String) : String := String.mk (jsTrimList s.data)

/-- The `maxLength={2000}` attribute on the message input element. -/
def inputMaxLength : Nat := 2000

/-- The bound the message input control enforces on its value: the DOM
never lets the field's value exceed `maxLength` characters, so any text
entered is held truncated to 2000 units. -/
def applyInputChange (v : String) : String := String.mk (v.data.take inputMaxLength)

/-- Mirrors `handleSend` of `ChatWindow`: the input is trimmed; when the
trimmed content is empty, or there is no WebSocket, or its `readyState` is
not `OPEN`, the handler returns without transmitting (`return;` — no error
value, no queue); otherwise exactly one frame
`{ room_id: roomId, content }` is sent. `none` means no frame was
transmitted. -/
def handleSend (roomId : Nat) (input : String) (ws : Option WsReadyState) : Option OutFrame :=
  let content := jsTrim input
  if content = "" then none
  else
    match ws with
    | none => none
    | some rs =>
        if rs = WsReadyState.wsOpen then
          some { room_id := roomId, content := content }
        else none

/-- A history request issued by the history-load effect of `ChatWindow`
(`api.get(/chat/history/roomId?limit=100)`): its promise is identified by
`fetchId` and was issued for `roomId`. The source never aborts these
promises — there is no `AbortController` and the effect returns no cleanup
cancelling the request — so a request stays pending until it settles. -/
structure PendingFetch where
  fetchId : Nat
  roomId : Nat
  deriving DecidableEq, Repr

/-- The session-level state: the global chat store plus the set of history
requests whose promises have not settled, and a counter minting fresh
request identities. -/
structure SessionState where
  store : ChatState
  pending : List PendingFetch
  nextFetchId : Nat
  deriving DecidableEq, Repr

/-- The discrete events the single cooperative thread processes:
`activate roomId` is `ChatWindow` mounting or switching to `roomId` (the
set-active-room effect runs `setActiveRoom`, the history effect issues a
new request); `deactivate` is the unmount cleanup `setActiveRoom(null)`;
`historyOk` and `historyErr` are a pending request settling; `wsFrame` is
`ws.onmessage` firing. -/
inductive SessionEvent
  | activate (roomId : Nat)
  | deactivate
  | historyOk (fetchId : Nat) (msgs : List ChatMessage)
  | historyErr (fetchId : Nat)
  | wsFrame (f : InboundFrame)
  deriving DecidableEq, Repr

/-- One turn of the event loop, as `ChatWindow` implements it. On
`activate`, `setActiveRoom` runs and a fresh history request is issued
while every previously pending request stays pending (the source cancels
nothing). When a pending request settles successfully, its `.then` handler
runs `setMessages` on the global store unconditionally — the handler does
not compare the request's room against the currently active room. -/
def stepEvent (st : SessionState) (e : SessionEvent) : SessionState :=
  match e with
  | SessionEvent.activate roomId =>
      { store := setActiveRoom st.store (some roomId),
        pending := st.pending ++ [{ fetchId := st.nextFetchId, roomId := roomId }],
        nextFetchId := st.nextFetchId + 1 }
  | SessionEvent.deactivate =>
      { st with store := setActiveRoom st.store none }
  | SessionEvent.historyOk fetchId msgs =>
      if st.pending.any (fun p => p.fetchId == fetchId) then
        { st with
          store := setMessages st.store msgs,
          pending := st.pending.filter (fun p => p.fetchId != fetchId) }
      else st
  | SessionEvent.historyErr fetchId =>
      { st with pending := st.pending.filter (fun p => p.fetchId != fetchId) }
  | SessionEvent.wsFrame f =>
      { st with store := onMessageHandler st.store f }

/-- The session before any room was activated. -/
def initSession : SessionState :=
  { store := initialChatState, pending := [], nextFetchId := 0 }

/-- Processing a whole sequence of events, one turn at a time. -/
def runTrace (st : SessionState) (events : List SessionEvent) : SessionState :=
  events.foldl stepEvent st

/-- The component-local state of `ChatRoomList`: the global store plus its
`isLoading` flag. -/
structure RoomListComponent where
  store : ChatState
  isLoading : Bool
  deriving DecidableEq, Repr

/-- What `ChatRoomList` renders: the spinner while loading, the
"No conversations yet" empty state when the room list is empty, and
otherwise the room list itself. The component has no error view. -/
inductive RoomListView
  | spinner
  | emptyState
  | roomList (rooms : List ChatRoom)
  deriving DecidableEq, Repr

/-- Settling of the rooms fetch of `ChatRoomList`
(`api.get("/chat/rooms")`): on success the `.then` handler runs
`setRooms(res.data || [])` (an absent payload becomes the empty list); on
failure the `.catch` handler only logs to the console, leaving the store
untouched; `.finally` clears `isLoading` on both paths. The handlers issue
no further request, so a failed fetch is not retried. -/
def roomsFetchSettle (c : RoomListComponent)
    (res : Except String (Option (List ChatRoom))) : RoomListComponent :=
  match res with
  | Except.ok d => { store := setRooms c.store (d.getD []), isLoading := false }
  | Except.error _ => { c with isLoading := false }

/-- The render function of `ChatRoomList` restricted to its three
top-level views. -/
def renderRoomList (c : RoomListComponent) : RoomListView :=
  if c.isLoading then RoomListView.spinner
  else if c.store.rooms.isEmpty then RoomListView.emptyState
  else RoomListView.roomList c.store.rooms

/-! Concrete inputs used by the claim theorems below. -/

/-- A room-1 message whose history fetch is still in flight when room 2 is
activated. -/
def staleR1Msg : ChatMessage :=
  { id := 101, room_id := 1, sender_id := 7, sender_name := "alice",
    sender_role := UserRole.seller, content := "hello from room one",
    timestamp := "2024-01-01T10:00:00", read_at := none }

/-- Room 1 is activated (issuing history fetch 0), then room 2 is
activated (issuing history fetch 1) while fetch 0 is still pending, then
the slow fetch 0 settles with room-1 history. -/
def staleTrace : List SessionEvent :=
  [SessionEvent.activate 1, SessionEvent.activate 2,
   SessionEvent.historyOk 0 [staleR1Msg]]

/-- A room carrying three unread messages. -/
def c4room : ChatRoom :=
  { id := 1, name := "Order 12", order_id := some 12, is_active := true,
    created_at := "2024-01-01T09:00:00", participants := [],
    last_message := none, unread_count := 3 }

/-- A store whose only room has unread count 3 and no active room. -/
def c4state : ChatState :=
  { rooms := [c4room], activeRoomId := none, messages := [], isConnected := true }

/-- History of the previously active room 1. -/
def leakR1Msg : ChatMessage :=
  { id := 201, room_id := 1, sender_id := 7, sender_name := "alice",
    sender_role := UserRole.seller, content := "old room history",
    timestamp := "2024-01-01T10:01:00", read_at := none }

/-- A live message for the newly active room 2. -/
def leakR2Msg : ChatMessage :=
  { id := 202, room_id := 2, sender_id := 8, sender_name := "bob",
    sender_role := UserRole.buyer, content := "live in new room",
    timestamp := "2024-01-01T10:02:00", read_at := none }

/-- Rooms 1 then 2 are activated; the pending room-1 history settles late;
then a live room-2 message arrives, before the room-2 history settles. -/
def leakTrace : List SessionEvent :=
  [SessionEvent.activate 1, SessionEvent.activate 2,
   SessionEvent.historyOk 0 [leakR1Msg],
   SessionEvent.wsFrame (InboundFrame.tagged "message" leakR2Msg)]

/-- A room already held by the directory before a failing refresh. -/
def c8room : ChatRoom :=
  { id := 5, name := "Support", order_id := none, is_active := true,
    created_at := "2024-01-01T08:00:00", participants := [],
    last_message := none, unread_count := 0 }

/-- A `ChatRoomList` whose store already holds one room when its rooms
fetch settles. -/
def c8comp : RoomListComponent :=
  { store := { initialChatState with rooms := [c8room] }, isLoading := true }

/-- A store with empty message log whose active room is room 1. -/
def c2state : ChatState :=
  { rooms := [], activeRoomId := some 1, messages := [], isConnected := true }

/-- A live message for room 2, whose identity 5 is fresh for the store. -/
def c2msg : ChatMessage :=
  { id := 5, room_id := 2, sender_id := 9, sender_name := "bob",
    sender_role := UserRole.buyer, content := "hi", timestamp := "2024-01-01T11:00:00",
    read_at := none }

/-- A message already stored for the active room. -/
def w2m1 : ChatMessage :=
  { id := 1, room_id := 1, sender_id := 7, sender_name := "alice",
    sender_role := UserRole.seller, content := "first", timestamp := "2024-01-01T09:30:00",
    read_at := none }

/-- A store whose active room 1 already holds message `w2m1`. -/
def w2s : ChatState :=
  { rooms := [], activeRoomId := some 1, messages := [w2m1], isConnected := true }

/-- A fresh live message for the active room. -/
def w2m : ChatMessage :=
  { id := 2, room_id := 1, sender_id := 8, sender_name := "bob",
    sender_role := UserRole.buyer, content := "second", timestamp := "2024-01-01T09:31:00",
    read_at := none }

/-- Room 4, with no unread messages yet. -/
def w3room : ChatRoom :=
  { id := 4, name := "Order 8", order_id := some 8, is_active := true,
    created_at := "2024-01-01T08:30:00", participants := [],
    last_message := none, unread_count := 0 }

/-- A store whose directory holds room 4 while room 9 is active. -/
def w3s : ChatState :=
  { rooms := [w3room], activeRoomId := some 9, messages := [], isConnected := true }

/-- A live message for room 4, received while room 9 is active. -/
def w3msg : ChatMessage :=
  { id := 40, room_id := 4, sender_id := 6, sender_name := "carol",
    sender_role := UserRole.admin, content := "update", timestamp := "2024-01-01T12:00:00",
    read_at := none }

/-- A connected store holding a room and a message, hit by a malformed
frame. -/
def w7s : ChatState :=
  { rooms := [w3room], activeRoomId := some 4, messages := [w2m1], isConnected := true }

/-- Room 2, carrying one unread message. -/
def w10room : ChatRoom :=
  { id := 2, name := "Order 3", order_id := some 3, is_active := true,
    created_at := "2024-01-01T07:00:00", participants := [],
    last_message := none, unread_count := 1 }

/-- A store in which room 1 is active while the directory holds room 2. -/
def w10s : ChatState :=
  { rooms := [w10room], activeRoomId := some 1, messages := [], isConnected := true }

/-- A live message for room 2, delivered while room 1 is active. -/
def w10msg : ChatMessage :=
  { id := 300, room_id := 2, sender_id := 11, sender_name := "dave",
    sender_role := UserRole.buyer, content := "are you there",
    timestamp := "2024-01-01T13:00:00", read_at := none }

/-! Helper lemmas shared by the claim theorems. -/

/-- Dropping a prefix never lengthens a character list. -/
lemma length_dropWhileChar_le (p : Char → Bool) (l : List Char) :
    (l.dropWhile p).length ≤ l.length := by
  induction l with
  | nil => simp [List.dropWhile]
  | cons a t ih =>
      by_cases h : p a = true
      · simp only [List.dropWhile, h]
        exact Nat.le_succ_of_le ih
      · simp [List.dropWhile, h]

/-- Trimming never lengthens a character list. -/
lemma length_jsTrimList_le (l : List Char) : (jsTrimList l).length ≤ l.length := by
  unfold jsTrimList
  calc (((l.dropWhile Char.isWhitespace).reverse.dropWhile Char.isWhitespace).reverse).length
      = ((l.dropWhile Char.isWhitespace).reverse.dropWhile Char.isWhitespace).length := by
        rw [List.length_reverse]
    _ ≤ (l.dropWhile Char.isWhitespace).reverse.length :=
        length_dropWhileChar_le _ _
    _ = (l.dropWhile Char.isWhitespace).length := by rw [List.length_reverse]
    _ ≤ l.length := length_dropWhileChar_le _ _

/-- Trimming never lengthens a string. -/
lemma jsTrim_length_le (s : String) : (jsTrim s).length ≤ s.length :=
  length_jsTrimList_le s.data

/-- The input control keeps its value within `maxLength` units. -/
lemma applyInputChange_length_le (v : String) :
    (applyInputChange v).length ≤ inputMaxLength := by
  show (v.data.take inputMaxLength).length ≤ inputMaxLength
  rw [List.length_take]
  exact Nat.min_le_left _ _

/-- Reading a mapped room list at an in-bounds position reads the mapped
entry. -/
lemma getD_map_of_lt (f : ChatRoom → ChatRoom) (l : List ChatRoom) (i : Nat)
    (d : ChatRoom) (hi : i < l.length) :
    (l.map f).getD i d = f (l.getD i d) := by
  induction l generalizing i with
  | nil => simp at hi
  | cons a t ih =>
      cases i with
      | zero => rfl
      | succ n =>
          have : n < t.length := by simpa using hi
          simpa using ih n this

/-- The message log after `addMessage`, by the branch taken. -/
lemma addMessage_messages_cases (s : ChatState) (msg : ChatMessage) :
    (addMessage s msg).messages =
      (if some msg.room_id = s.activeRoomId then
        if s.messages.any (fun m => m.id == msg.id) then s.messages
        else s.messages ++ [msg]
      else s.messages) := rfl

/-- The room directory after `addMessage` is the mapped update. -/
lemma addMessage_rooms (s : ChatState) (msg : ChatMessage) :
    (addMessage s msg).rooms = s.rooms.map (applyRoomUpdate s.activeRoomId msg) := rfl

/-- The active-room pointer survives `addMessage`. -/
lemma addMessage_activeRoomId (s : ChatState) (msg : ChatMessage) :
    (addMessage s msg).activeRoomId = s.activeRoomId := rfl

/-- Inversion for `handleSend`: a frame is transmitted exactly when the
trimmed content is nonempty and the socket is open, and then the frame
carries the trimmed content. -/
lemma handleSend_eq_some_iff (roomId : Nat) (input : String)
    (ws : Option WsReadyState) (f : OutFrame) :
    handleSend roomId input ws = some f ↔
      (jsTrim input ≠ "" ∧ ws = some WsReadyState.wsOpen ∧
        f = { room_id := roomId, content := jsTrim input }) := by
  unfold handleSend
  cases ws with
  | none => by_cases he : jsTrim input = "" <;> simp [he]
  | some rs =>
      by_cases he : jsTrim input = "" <;>
        by_cases hrs : rs = WsReadyState.wsOpen <;>
          simp [he, hrs, eq_comm]

/-! The claim theorems. -/

/-- Claim C1: the claim says that activating room B while the history
fetch of room A is still in flight cancels that fetch, so its eventual
completion never mutates the Message Store. The code issues history
requests without any cancellation and every settling request runs
`setMessages` unconditionally, so on the trace that activates room 1, then
room 2, and then lets the slow room-1 history settle, the store of the
freshly activated room 2 is overwritten with room-1 messages. The first
conjunct shows the store was empty right after room 2 was activated: the
stale completion alone mutated it. -/
theorem claim_C1_stale_fetch_overwrites_store :
    (runTrace initSession [SessionEvent.activate 1, SessionEvent.activate 2]).store.messages
      = [] ∧
    (runTrace initSession staleTrace).store.activeRoomId = some 2 ∧
    (runTrace initSession staleTrace).store.messages = [staleR1Msg] ∧
    staleR1Msg.room_id = 1 ∧
    (runTrace initSession staleTrace).pending = [{ fetchId := 1, roomId := 2 }] :=
  ⟨rfl, rfl, rfl, rfl, rfl⟩

/-- Claim C2 counterexample: the claim says a message whose identity is
not yet in the store is appended at the end. `c2msg` has a fresh identity
5, yet `addMessage` does not append it, because its room 2 is not the
active room 1. -/
theorem claim_C2_counterexample :
    (c2state.messages.any fun m => m.id == c2msg.id) = false ∧
    (addMessage c2state c2msg).messages ≠ c2state.messages ++ [c2msg] :=
  ⟨rfl, by decide⟩

/-- Claim C2 as amended: over any `addMessage` call on a store whose
message identities are distinct, the identities stay distinct; a message
whose identity already exists leaves the log unchanged; a fresh message is
appended at the end exactly when its room is the active room, preserving
arrival order (never re-sorted); and a message for a non-active room is
never appended. -/
theorem claim_C2_amended (s : ChatState) (msg : ChatMessage)
    (h : (s.messages.map (fun m => m.id)).Nodup) :
    ((addMessage s msg).messages.map (fun m => m.id)).Nodup ∧
    ((s.messages.any fun m => m.id == msg.id) = true →
      (addMessage s msg).messages = s.messages) ∧
    (s.activeRoomId = some msg.room_id →
      (s.messages.any fun m => m.id == msg.id) = false →
      (addMessage s msg).messages = s.messages ++ [msg]) ∧
    (s.activeRoomId ≠ some msg.room_id → (addMessage s msg).messages = s.messages) := by
  rw [addMessage_messages_cases]
  by_cases hact : some msg.room_id = s.activeRoomId
  · rw [if_pos hact]
    by_cases hex : s.messages.any (fun m => m.id == msg.id) = true
    · rw [if_pos hex]
      refine ⟨h, fun _ => rfl, fun _ hfalse => ?_, fun hne => absurd hact.symm hne⟩
      rw [hfalse] at hex
      exact absurd hex (by simp)
    · rw [if_neg hex]
      have hex2 : s.messages.any (fun m => m.id == msg.id) = false := by
        simpa using hex
      have hnotin : msg.id ∉ s.messages.map (fun m => m.id) := by
        intro hmem
        rcases List.mem_map.mp hmem with ⟨m, hm, hid⟩
        have := List.any_eq_false.mp hex2 m hm
        simp [hid] at this
      refine ⟨?_, fun habs => absurd habs hex, fun _ _ => rfl,
        fun hne => absurd hact.symm hne⟩
      rw [List.map_append]
      refine List.Nodup.append h (by simp) ?_
      intro a ha hb
      simp only [List.map_cons, List.map_nil, List.mem_singleton] at hb
      exact hnotin (hb ▸ ha)
  · rw [if_neg hact]
    exact ⟨h, fun _ => rfl, fun hacteq _ => absurd hacteq.symm hact, fun _ => rfl⟩

/-- Claim C2 witness: the amended theorem applied at a store holding one
message of the active room and a fresh live message for that room. -/
theorem claim_C2_amended_witness :
    ((addMessage w2s w2m).messages.map (fun m => m.id)).Nodup ∧
    ((w2s.messages.any fun m => m.id == w2m.id) = true →
      (addMessage w2s w2m).messages = w2s.messages) ∧
    (w2s.activeRoomId = some w2m.room_id →
      (w2s.messages.any fun m => m.id == w2m.id) = false →
      (addMessage w2s w2m).messages = w2s.messages ++ [w2m]) ∧
    (w2s.activeRoomId ≠ some w2m.room_id → (addMessage w2s w2m).messages = w2s.messages) :=
  claim_C2_amended w2s w2m (by decide)

/-- Claim C3: for every inbound live message, the directory room at any
position whose identity equals the message room identity gets its
last-message preview set to the message content, sender and timestamp, and
its unread count is incremented by exactly one iff the message room is not
the active room; and a history load (`setMessages`) never changes any
room, in particular no unread count. -/
theorem claim_C3_directory_update (s : ChatState) (msg : ChatMessage) (i : Nat)
    (d : ChatRoom) (hi : i < s.rooms.length)
    (hmatch : (s.rooms.getD i d).id = msg.room_id) :
    ((addMessage s msg).rooms.getD i d).last_message = some (previewOf msg) ∧
    ((addMessage s msg).rooms.getD i d).unread_count =
      (if some msg.room_id ≠ s.activeRoomId
       then (s.rooms.getD i d).unread_count + 1
       else (s.rooms.getD i d).unread_count) ∧
    (∀ msgs, (setMessages s msgs).rooms = s.rooms) := by
  rw [addMessage_rooms, getD_map_of_lt _ _ _ _ hi]
  unfold applyRoomUpdate
  rw [if_pos hmatch]
  exact ⟨rfl, rfl, fun _ => rfl⟩

/-- Claim C3 witness: the theorem applied to a directory holding room 4
while room 9 is active and a live room-4 message arrives. -/
theorem claim_C3_directory_update_witness :
    (0 < w3s.rooms.length) ∧
    ((w3s.rooms.getD 0 w3room).id = w3msg.room_id) ∧
    (((addMessage w3s w3msg).rooms.getD 0 w3room).last_message = some (previewOf w3msg) ∧
     ((addMessage w3s w3msg).rooms.getD 0 w3room).unread_count =
       (if some w3msg.room_id ≠ w3s.activeRoomId
        then (w3s.rooms.getD 0 w3room).unread_count + 1
        else (w3s.rooms.getD 0 w3room).unread_count) ∧
     (∀ msgs, (setMessages w3s msgs).rooms = w3s.rooms)) :=
  ⟨by decide, by decide,
    claim_C3_directory_update w3s w3msg 0 w3room (by decide) (by decide)⟩

/-- Claim C4: the claim says activating a room sets its unread count to
zero. `setActiveRoom`, the only action the activation path of `ChatWindow`
runs, leaves the room directory entirely unchanged, and the resetting
action `updateUnreadCount` has no call site in the repository: after
activating room 1, whose unread count is 3, the count is still 3. -/
theorem claim_C4_activation_never_resets_unread (s : ChatState) (roomId : Option Nat) :
    (setActiveRoom s roomId).rooms = s.rooms ∧
    (setActiveRoom c4state (some 1)).activeRoomId = some 1 ∧
    ((setActiveRoom c4state (some 1)).rooms.map fun r => r.unread_count) = [3] ∧
    (stepEvent { store := c4state, pending := [], nextFetchId := 0 }
      (SessionEvent.activate 1)).store.rooms = [c4room] :=
  ⟨rfl, rfl, rfl, rfl⟩

/-- Claim C5 counterexample: the claim says the store is empty between the
clear of a switch and the first successful history replace for the new
room, and never holds messages of a previously active room alongside the
new one. On `leakTrace` room 2 is active, its own history fetch (identity
1) is still pending, yet the store holds a room-1 history message alongside
a live room-2 message. -/
theorem claim_C5_counterexample :
    (runTrace initSession leakTrace).store.activeRoomId = some 2 ∧
    (runTrace initSession leakTrace).store.messages = [leakR1Msg, leakR2Msg] ∧
    leakR1Msg.room_id = 1 ∧
    leakR2Msg.room_id = 2 ∧
    (runTrace initSession leakTrace).pending = [{ fetchId := 1, roomId := 2 }] := by
  refine ⟨rfl, ?_, rfl, rfl, rfl⟩
  decide

/-- Claim C5 as amended: every switch of the active room (activation of a
new room or deactivation) clears the Message Store atomically as part of
the switch, so the store is empty immediately after the switch and before
any history for the new room arrives; it is not guaranteed to stay empty
until the first successful history replace, since an uncancelled pending
history completion of the previous room, or a live message for the new
room, can repopulate it first. -/
theorem claim_C5_switch_clears_store (st : SessionState) (roomId : Nat)
    (s : ChatState) (r : Option Nat) :
    (stepEvent st (SessionEvent.activate roomId)).store.messages = [] ∧
    (stepEvent st SessionEvent.deactivate).store.messages = [] ∧
    (setActiveRoom s r).messages = [] :=
  ⟨rfl, rfl, rfl⟩

/-- Claim C6: a send can transmit a frame only while the WebSocket is in
the OPEN state; whenever it is not, `handleSend` returns without
transmitting any frame, and the model holds no queue that could buffer the
message. -/
theorem claim_C6_send_requires_open (roomId : Nat) (input : String)
    (ws : Option WsReadyState) (h : ws ≠ some WsReadyState.wsOpen) :
    handleSend roomId input ws = none := by
  cases ws with
  | none =>
      unfold handleSend
      by_cases he : jsTrim input = "" <;> simp [he]
  | some rs =>
      have hrs : ¬ rs = WsReadyState.wsOpen := by
        intro hEq
        exact h (by rw [hEq])
      unfold handleSend
      by_cases he : jsTrim input = "" <;> simp [he, hrs]

/-- Claim C6 witness: a send attempted over a closed socket transmits no
frame. -/
theorem claim_C6_send_requires_open_witness :
    (some WsReadyState.closed ≠ some WsReadyState.wsOpen) ∧
    handleSend 1 "hello there" (some WsReadyState.closed) = none :=
  ⟨by decide,
    claim_C6_send_requires_open 1 "hello there" (some WsReadyState.closed) (by decide)⟩

/-- Claim C7: an inbound frame that fails to parse, or whose tag is not
the recognized message tag, leaves the whole state unchanged: the
connection flag, the Message Store and the Room Directory are exactly what
they were, no error is surfaced and, the handler being a total function
mirroring the try-catch of the source, no exception escapes. -/
theorem claim_C7_malformed_frame_ignored (s : ChatState) (f : InboundFrame)
    (h : isMessageFrame f = false) :
    onMessageHandler s f = s ∧
    (onMessageHandler s f).isConnected = s.isConnected ∧
    (onMessageHandler s f).messages = s.messages ∧
    (onMessageHandler s f).rooms = s.rooms := by
  have he : onMessageHandler s f = s := by
    cases f with
    | unparseable => rfl
    | tagged tag payload =>
        have htag : (tag == "message") = false := by
          simpa [isMessageFrame] using h
        simp [onMessageHandler, htag]
  exact ⟨he, by rw [he], by rw [he], by rw [he]⟩

/-- Claim C7 witness: an unparseable frame hitting a connected store with
a room and a message changes nothing. -/
theorem claim_C7_malformed_frame_ignored_witness :
    (isMessageFrame InboundFrame.unparseable = false) ∧
    (onMessageHandler w7s InboundFrame.unparseable = w7s ∧
     (onMessageHandler w7s InboundFrame.unparseable).isConnected = w7s.isConnected ∧
     (onMessageHandler w7s InboundFrame.unparseable).messages = w7s.messages ∧
     (onMessageHandler w7s InboundFrame.unparseable).rooms = w7s.rooms) :=
  ⟨rfl, claim_C7_malformed_frame_ignored w7s InboundFrame.unparseable rfl⟩

/-- Claim C8 counterexample: the claim says a failing directory refresh
fails open to an empty room list with the error surfaced for display. On a
store already holding a room, the failing fetch leaves that stale list in
place — not empty — and the component renders the ordinary room list, no
error view. -/
theorem claim_C8_counterexample :
    (roomsFetchSettle c8comp (Except.error "Network Error")).store.rooms = [c8room] ∧
    [c8room] ≠ ([] : List ChatRoom) ∧
    renderRoomList (roomsFetchSettle c8comp (Except.error "Network Error"))
      = RoomListView.roomList [c8room] := by
  refine ⟨rfl, by decide, ?_⟩
  decide

/-- Claim C8 as amended: a successful refresh replaces the full room set
from the fetch payload (empty when the payload is absent); on transport
error the room set is left unchanged — the empty list only when the store
held no rooms, as on first load — the error is only logged, not rendered,
and loading ends without any automatic retry. -/
theorem claim_C8_amended (c : RoomListComponent) (e : String)
    (d : Option (List ChatRoom)) :
    (roomsFetchSettle c (Except.error e)).store.rooms = c.store.rooms ∧
    (roomsFetchSettle c (Except.error e)).isLoading = false ∧
    (roomsFetchSettle c (Except.ok d)).store.rooms = d.getD [] ∧
    (roomsFetchSettle c (Except.ok d)).isLoading = false :=
  ⟨rfl, rfl, rfl, rfl⟩

/-- Claim C9: every frame a send attempt actually transmits carries the
trimmed input of the bounded input control, is nonempty after trimming and
is at most 2000 units long; and any input that is empty after trimming is
rejected with no frame transmitted. -/
theorem claim_C9_send_bounds (roomId : Nat) (raw : String)
    (ws : Option WsReadyState) (f : OutFrame)
    (h : handleSend roomId (applyInputChange raw) ws = some f) :
    f.content = jsTrim (applyInputChange raw) ∧
    f.content ≠ "" ∧
    f.content.length ≤ 2000 ∧
    (∀ s2, jsTrim s2 = "" → handleSend roomId s2 ws = none) := by
  have hrej : ∀ s2, jsTrim s2 = "" → handleSend roomId s2 ws = none := by
    intro s2 he
    unfold handleSend
    simp [he]
  rcases (handleSend_eq_some_iff roomId (applyInputChange raw) ws f).mp h with
    ⟨hne, _, hf⟩
  subst hf
  refine ⟨rfl, hne, ?_, hrej⟩
  calc (jsTrim (applyInputChange raw)).length
      ≤ (applyInputChange raw).length := jsTrim_length_le _
    _ ≤ inputMaxLength := applyInputChange_length_le _

/-- Claim C9 witness: sending the padded input collapses it to the
trimmed nonempty content within the 2000-unit bound. -/
theorem claim_C9_send_bounds_witness :
    (handleSend 3 (applyInputChange " hello ") (some WsReadyState.wsOpen)
      = some { room_id := 3, content := "hello" }) ∧
    (({ room_id := 3, content := "hello" } : OutFrame).content
      = jsTrim (applyInputChange " hello ") ∧
     ({ room_id := 3, content := "hello" } : OutFrame).content ≠ "" ∧
     ({ room_id := 3, content := "hello" } : OutFrame).content.length ≤ 2000 ∧
     (∀ s2, jsTrim s2 = "" → handleSend 3 s2 (some WsReadyState.wsOpen) = none)) :=
  ⟨by decide,
    claim_C9_send_bounds 3 " hello " (some WsReadyState.wsOpen)
      { room_id := 3, content := "hello" } (by decide)⟩

/-- Claim C10: the identity deduplication of `addMessage` guards only the
message log, not the room directory. Delivering the same message twice for
a non-active room leaves the log untouched both times, yet overwrites the
preview on each delivery and increments the unread count of the matching
room twice. -/
theorem claim_C10_duplicate_increments_twice (s : ChatState) (msg : ChatMessage)
    (h : some msg.room_id ≠ s.activeRoomId) :
    (addMessage (addMessage s msg) msg).messages = s.messages ∧
    (addMessage (addMessage s msg) msg).rooms =
      s.rooms.map (fun r =>
        if r.id = msg.room_id then
          { r with
            last_message := some (previewOf msg),
            unread_count := r.unread_count + 2 }
        else r) := by
  have hmsgs1 : (addMessage s msg).messages = s.messages := by
    rw [addMessage_messages_cases, if_neg h]
  have hact1 : (addMessage s msg).activeRoomId = s.activeRoomId := rfl
  have hmsgs2 : (addMessage (addMessage s msg) msg).messages = s.messages := by
    rw [addMessage_messages_cases, hact1, if_neg h, hmsgs1]
  refine ⟨hmsgs2, ?_⟩
  rw [addMessage_rooms, addMessage_rooms, hact1, List.map_map]
  refine congrArg (fun g => s.rooms.map g) (funext fun r => ?_)
  show applyRoomUpdate s.activeRoomId msg (applyRoomUpdate s.activeRoomId msg r) = _
  unfold applyRoomUpdate
  by_cases hid : r.id = msg.room_id
  · rw [if_pos hid]
    rw [if_pos h, if_pos hid, if_pos h, if_pos hid]
  · rw [if_neg hid, if_neg hid, if_neg hid]

/-- Claim C10 witness: the duplicated room-2 message delivered twice while
room 1 is active raises the unread count of room 2 from 1 to 3. -/
theorem claim_C10_duplicate_increments_twice_witness :
    (some w10msg.room_id ≠ w10s.activeRoomId) ∧
    ((addMessage (addMessage w10s w10msg) w10msg).messages = w10s.messages ∧
     (addMessage (addMessage w10s w10msg) w10msg).rooms =
       w10s.rooms.map (fun r =>
         if r.id = w10msg.room_id then
           { r with
             last_message := some (previewOf w10msg),
             unread_count := r.unread_count + 2 }
         else r)) :=
  ⟨by decide, claim_C10_duplicate_increments_twice w10s w10msg (by decide)⟩

end SMobileChat
